import Mathlib

/-!
Shallow embedding of the changeset commit engine and the diagnostic graph
engine of `src/commit.c` (apk-tools).  Packages and names are referenced by
integer handles; the pointer graph of the C code becomes lookup functions on a
`Database`/`Graph` record.  External collaborators that are not part of the
source excerpt (the install primitive `apk_db_install_pkg`, script execution
`apk_db_run_script`, the directory iterator `apk_dir_foreach_file`, trigger
firing `apk_db_fire_triggers`, configuration writing `apk_db_write_config`,
the world validator `apk_db_check_world`, and version comparison
`apk_pkg_version_compare`) are modelled as an explicit environment `Env`
recording the outcomes of those calls.
-/

namespace Apk

/-- A `Change` of a changeset, from `struct apk_change`: old/new package
(handles, `none` = NULL pointer), the reinstall flag and old/new repository
tags. -/
structure Change where
  old_pkg : Option Nat
  new_pkg : Option Nat
  reinstall : Bool
  old_repository_tag : Nat
  new_repository_tag : Nat
deriving DecidableEq, Repr

/-- Statistics accumulator, from `struct apk_stats` in commit.c. -/
structure ApkStats where
  bytes : Nat
  changes : Nat
  packages : Nat
deriving DecidableEq, Repr

/-- The installed-database counters `db->installed.stats`. -/
structure DbStats where
  bytes : Nat
  packages : Nat
  dirs : Nat
  files : Nat
deriving DecidableEq, Repr

/-- The parts of `struct apk_database` (and its context) read by
`apk_solver_commit_changeset`.  Per-package attributes are lookup functions on
the package handle.  `ipkg_broken p` models
`p->ipkg->broken_files || p->ipkg->broken_script`; `has_ipkg p` models
`p->ipkg != NULL` at the time the apply loop inspects it.  `ver_cmp` models
`apk_pkg_version_compare` (not part of the excerpt) as a total comparison. -/
structure Database where
  simulate : Bool
  interactive : Bool
  no_scripts : Bool
  no_commit_hooks : Bool
  verbosity : Nat
  performing_self_upgrade : Bool
  available_repos : Nat
  local_repos : Nat
  repos : Nat → Nat
  installed_size : Nat → Nat
  size : Nat → Nat
  ipkg_broken : Nat → Bool
  has_ipkg : Nat → Bool
  pending_triggers_len : Nat → Nat
  ver_cmp : Nat → Nat → Ordering
  world0 : List Nat
  stats0 : DbStats
  ipkg_tag0 : Nat → Nat

/-- Mutable database state threaded through the commit: the world, the
installed counters and the per-installed-package repository tag. -/
structure DbMut where
  world : List Nat
  stats : DbStats
  ipkg_tag : Nat → Nat

/-- Initial mutable state of a database. -/
def Database.mut0 (db : Database) : DbMut :=
  { world := db.world0, stats := db.stats0, ipkg_tag := db.ipkg_tag0 }

/-- Outcomes of the external calls made during one commit.  `install_result i`
is the return value of `apk_db_install_pkg` for the i-th change and
`install_stats i` its effect on `db->installed.stats`; `hook_files` is the
ordered listing of `etc/apk/commit_hooks.d` (`none` = the directory cannot be
opened); `pre_hook_fail`/`post_hook_fail` tell whether `apk_db_run_script`
returns a negative value for a given hook entry in the given phase;
`prompt_answer` is the `fgetc(stdin)` result (`none` = EOF);
`fire_triggers` is the return value of `apk_db_fire_triggers`;
`trigger_script_fail p` tells whether the trigger script of package `p` fails;
`num_dir_update_errors` is `db->num_dir_update_errors` as read after the apply
loop; `write_config_ok` tells whether `apk_db_write_config` returns 0. -/
structure Env where
  check_world_ok : Bool
  prompt_answer : Option Char
  hook_files : Option (List (List Char))
  pre_hook_fail : List Char → Bool
  post_hook_fail : List Char → Bool
  install_result : Nat → Int
  install_stats : Nat → DbStats → DbStats
  num_dir_update_errors : Nat
  fire_triggers : Nat
  trigger_script_fail : Nat → Bool
  write_config_ok : Bool

/-- Model of `pkg_available` (commit.c line 33): the package's repository
bitmask intersects the available repositories. -/
def pkg_available (db : Database) (pkg : Nat) : Bool :=
  db.repos pkg &&& db.available_repos != 0

/-- `pkg_available` lifted to an optional package; the C code only evaluates it
on non-null packages. -/
def pkg_available_opt (db : Database) (pkg : Option Nat) : Bool :=
  match pkg with
  | some p => pkg_available db p
  | none => false

/-- Model of `count_change` (commit.c lines 107-121): accumulate the byte,
package and change counts of one `Change` into a statistics record. -/
def count_change (db : Database) (change : Change) (stats : ApkStats) : ApkStats :=
  if change.new_pkg ≠ change.old_pkg ∨ change.reinstall = true then
    let stats :=
      match change.new_pkg with
      | some n => { stats with bytes := stats.bytes + db.installed_size n,
                               packages := stats.packages + 1 }
      | none => stats
    let stats :=
      match change.old_pkg with
      | some _ => { stats with packages := stats.packages + 1 }
      | none => stats
    { stats with changes := stats.changes + 1 }
  else if change.new_repository_tag ≠ change.old_repository_tag then
    { stats with packages := stats.packages + 1, changes := stats.changes + 1 }
  else
    stats

/-- Return value of `print_change` (commit.c lines 40-105): whether the change
is visible (has a message).  The message is `NULL` exactly for a no-op change:
same old/new package, no reinstall, same repository tag.  A change with both
packages `NULL` is invalid per the data model (the C code would dereference a
null pointer); it is mapped to `false`. -/
def print_change (change : Change) : Bool :=
  match change.old_pkg, change.new_pkg with
  | none, none => false
  | none, some _ => true
  | some _, none => true
  | some o, some n =>
    if o = n then change.reinstall || change.new_repository_tag != change.old_repository_tag
    else true

/-- Model of `cmp_remove` (commit.c line 165). -/
def cmp_remove (change : Change) : Bool :=
  change.new_pkg = none

/-- Model of `cmp_new` (commit.c line 170). -/
def cmp_new (change : Change) : Bool :=
  change.old_pkg = none

/-- Model of `cmp_reinstall` (commit.c line 175). -/
def cmp_reinstall (change : Change) : Bool :=
  change.reinstall

/-- Model of `cmp_downgrade` (commit.c lines 180-188). -/
def cmp_downgrade (db : Database) (change : Change) : Bool :=
  match change.old_pkg, change.new_pkg with
  | some o, some n => db.ver_cmp n o = Ordering.lt
  | _, _ => false

/-- Model of `cmp_upgrade` (commit.c lines 190-205): greater or equal version
on a different package object counts as an upgrade. -/
def cmp_upgrade (db : Database) (change : Change) : Bool :=
  match change.old_pkg, change.new_pkg with
  | some o, some n =>
    (db.ver_cmp n o = Ordering.gt || db.ver_cmp n o = Ordering.eq) && n ≠ o
  | _, _ => false

/-- Number of changes matched (and printed) by one `dump_packages` call
(commit.c lines 131-154); the commit path only uses the returned match count,
and that count is invariant under the display sort of the copied array. -/
def dump_packages (p : Change → Bool) (changes : List Change) : Nat :=
  (changes.filter p).length

/-- Aggregates precomputed over the changeset before the apply loop
(commit.c lines 303-317): `count_change` totals, byte delta, package-count
delta and download size. -/
structure Precount where
  total : ApkStats
  size_diff : Int
  pkg_diff : Int
  download_size : Nat
deriving Repr

/-- One step of the precomputation pass (commit.c lines 304-317). -/
def precount_step (db : Database) (pc : Precount) (c : Change) : Precount :=
  let pc := { pc with total := count_change db c pc.total }
  let pc :=
    match c.new_pkg with
    | some n =>
      let pc := { pc with size_diff := pc.size_diff + (db.installed_size n : Int),
                          pkg_diff := pc.pkg_diff + 1 }
      if c.new_pkg ≠ c.old_pkg ∧ db.repos n &&& db.local_repos = 0 then
        { pc with download_size := pc.download_size + db.size n }
      else pc
    | none => pc
  match c.old_pkg with
  | some o => { pc with size_diff := pc.size_diff - (db.installed_size o : Int),
                        pkg_diff := pc.pkg_diff - 1 }
  | none => pc

/-- The whole precomputation pass over the changeset. -/
def precount (db : Database) (cs : List Change) : Precount :=
  cs.foldl (precount_step db) ⟨⟨0, 0, 0⟩, 0, 0, 0⟩

/-- The precomputed byte delta `size_diff` (commit.c lines 290, 307, 314). -/
def size_diff_of (db : Database) (cs : List Change) : Int :=
  (precount db cs).size_diff

/-- The precomputed package-count delta `pkg_diff` (commit.c lines 291, 308, 315). -/
def pkg_diff_of (db : Database) (cs : List Change) : Int :=
  (precount db cs).pkg_diff

/-- Whether the verbose diff block is entered (commit.c lines 320-321):
verbosity above 1 or interactive mode, and not simulating. -/
def show_diff_block (db : Database) : Bool :=
  (db.verbosity > 1 || db.interactive) && !db.simulate

/-- The match count `r` accumulated by the `dump_packages` calls
(commit.c lines 328-338): removals and downgrades always, the remaining three
groups only when something matched already, or interactive mode, or verbosity
above 2. -/
def diff_match_count (db : Database) (cs : List Change) : Nat :=
  let r1 := dump_packages cmp_remove cs + dump_packages (cmp_downgrade db) cs
  if r1 > 0 || db.interactive || db.verbosity > 2 then
    r1 + dump_packages cmp_new cs + dump_packages (cmp_upgrade db) cs +
      dump_packages cmp_reinstall cs
  else r1

/-- Whether the interactive confirmation prompt is shown (commit.c line 354):
the diff block ran, matched something, and interactive mode is on. -/
def prompt_shown (db : Database) (cs : List Change) : Bool :=
  show_diff_block db && diff_match_count db cs > 0 && db.interactive

/-- Whether the interactive confirmation aborts the commit (commit.c lines
354-359): the prompt is shown and `fgetc` yields a character other than
`y`, `Y` or newline.  EOF (`none`) does not abort. -/
def interactive_declines (db : Database) (env : Env) (cs : List Change) : Bool :=
  prompt_shown db cs &&
    (match env.prompt_answer with
     | some ch => ch != 'y' && ch != 'Y' && ch != '\n'
     | none => false)

/-- Hook phase constant `PRE_COMMIT_HOOK` (commit.c line 232). -/
def PRE_COMMIT_HOOK : Nat := 0

/-- Hook phase constant `POST_COMMIT_HOOK` (commit.c line 233). -/
def POST_COMMIT_HOOK : Nat := 1

/-- Whether `apk_db_run_script` fails (returns a negative value) for the given
hook entry in the given phase, read from the environment. -/
def hook_script_failed (env : Env) (typ : Nat) (file : List Char) : Bool :=
  if typ = PRE_COMMIT_HOOK then env.pre_hook_fail file else env.post_hook_fail file

/-- Model of `run_commit_hook` (commit.c lines 240-263): entries whose name
starts with `.` are skipped, as is everything under the no-scripts, simulate
and no-commit-hooks flags; a failing script yields -2 only in the pre-commit
phase.  The `apk_fmt` path-length check is assumed to succeed. -/
def run_commit_hook (db : Database) (env : Env) (typ : Nat) (file : List Char) : Int :=
  if file.head? = some '.' then 0
  else if db.no_scripts || db.simulate then 0
  else if db.no_commit_hooks then 0
  else if hook_script_failed env typ file = true ∧ typ = PRE_COMMIT_HOOK then -2
  else 0

/-- First nonzero value of a list, 0 if none. -/
def first_nonzero (l : List Int) : Int :=
  (l.find? (fun r => r != 0)).getD 0

/-- Modelled from the spec: `apk_dir_foreach_file` (not in the source excerpt)
iterates the ordered directory listing and a failing callback aborts the
iteration, its result being propagated; an unopenable directory yields a
negative error that is not the pre-commit veto value -2. -/
def apk_dir_foreach_file (entries : Option (List (List Char))) (cb : List Char → Int) : Int :=
  match entries with
  | none => -1
  | some files => first_nonzero (files.map cb)

/-- Model of `run_commit_hooks` (commit.c lines 265-270). -/
def run_commit_hooks (db : Database) (env : Env) (typ : Nat) : Int :=
  apk_dir_foreach_file env.hook_files (run_commit_hook db env typ)

/-- Model of `run_triggers` (commit.c lines 207-230); `apk_db_fire_triggers`
and `apk_ipkg_run_script` are external, their outcomes and the pending-trigger
lists come from the environment and database records. -/
def run_triggers (db : Database) (env : Env) (changes : List Change) : Nat :=
  if env.fire_triggers = 0 then 0
  else
    changes.foldl
      (fun errors c =>
        match c.new_pkg with
        | none => errors
        | some pkg =>
          if db.has_ipkg pkg = false then errors
          else if db.pending_triggers_len pkg = 0 then errors
          else if env.trigger_script_fail pkg then errors + 1 else errors)
      0

/-- State threaded through the apply loop: the error counter and the mutable
database state. -/
structure ApplyState where
  errors : Nat
  db : DbMut

/-- The initial value of `r` in one apply-loop iteration (commit.c lines
368-370): whether the old installed package is flagged broken. -/
def change_broken (db : Database) (c : Change) : Nat :=
  match c.old_pkg with
  | some o => if db.ipkg_broken o then 1 else 0
  | none => 0

/-- The condition under which `apk_db_install_pkg` is invoked for a visible
change (commit.c lines 375-377): not simulating, and either a package-object
change or an available reinstall. -/
def change_do_install (db : Database) (c : Change) : Bool :=
  !db.simulate &&
    (c.old_pkg != c.new_pkg || (c.reinstall && pkg_available_opt db c.new_pkg))

/-- The final value of `r` (the error contribution) of the i-th change
(commit.c lines 368-384): the install result when the install primitive runs,
the broken-flag of the old package otherwise. -/
def change_error (db : Database) (env : Env) (i : Nat) (c : Change) : Nat :=
  if print_change c = true then
    if change_do_install db c = true then (if env.install_result i = 0 then 0 else 1)
    else change_broken db c
  else change_broken db c

/-- The repository-tag update of one apply-loop iteration (commit.c lines
381-382): on success (`r = 0`), a new package with an installed record gets
the new repository tag. -/
def apply_tag_update (db : Database) (c : Change) (r : Nat) (m : DbMut) : DbMut :=
  if r = 0 then
    match c.new_pkg with
    | some n =>
      if db.has_ipkg n then
        { m with ipkg_tag := Function.update m.ipkg_tag n c.new_repository_tag }
      else m
    | none => m
  else m

/-- One iteration of the apply loop (commit.c lines 367-386): `r` starts as
the broken-flag of the old installed package, `print_change` decides
visibility, a visible change is applied via `apk_db_install_pkg` unless
simulating or the change is a no-op on the package object (a reinstall needs
the package to be available), and on success the new package's installed
repository tag is updated.  The (0/1) value of `r` is added to the error
counter in every case. -/
def apply_change (db : Database) (env : Env) (i : Nat) (c : Change) (st : ApplyState) :
    ApplyState :=
  if print_change c = true then
    { errors := st.errors + change_error db env i c,
      db := apply_tag_update db c (change_error db env i c)
        (if change_do_install db c = true then
          { st.db with stats := env.install_stats i st.db.stats }
        else st.db) }
  else
    { errors := st.errors + change_error db env i c, db := st.db }

/-- The apply loop over the whole changeset, `i` being the index of the first
change of `cs` within the changeset. -/
def apply_changes (db : Database) (env : Env) : Nat → List Change → ApplyState → ApplyState
  | _, [], st => st
  | i, c :: cs, st => apply_changes db env (i + 1) cs (apply_change db env i c st)

/-- Sum of the per-change error contributions of the apply loop, starting at
change index `i`. -/
def errors_from (db : Database) (env : Env) : Nat → List Change → Nat
  | _, [] => 0
  | i, c :: cs => change_error db env i c + errors_from db env (i + 1) cs

/-- The observable outcome of `apk_solver_commit_changeset`: the return value,
the final mutable database state, which phases ran, and the summary quantities
(installed bytes and installed package count) reported at the end (`none` when
the summary is suppressed by `performing_self_upgrade`). -/
structure CommitResult where
  ret : Int
  db : DbMut
  stats_counted : Bool
  diff_shown : Bool
  prompted : Bool
  pre_hooks_ran : Bool
  apply_ran : Bool
  config_attempted : Bool
  post_hooks_ran : Bool
  summary : Option (Int × Int)

/-- The `all_done` tail of `apk_solver_commit_changeset` (commit.c lines
393-427): persist the target world, write configuration (a failure counts one
error), run the post-commit hooks (their result is discarded), and unless the
commit is part of a self-upgrade report the installed bytes/packages, adding
the precomputed deltas when simulating. -/
def all_done (db : Database) (env : Env) (dbm : DbMut) (world : List Nat)
    (errors : Nat) (size_diff pkg_diff : Int)
    (stats_counted diff_shown prompted pre_hooks_ran apply_ran : Bool) : CommitResult :=
  let dbm := { dbm with world := world }
  let errors := if env.write_config_ok then errors else errors + 1
  let summary : Option (Int × Int) :=
    if db.performing_self_upgrade then none
    else
      let installed_bytes : Int :=
        (dbm.stats.bytes : Int) + (if db.simulate then size_diff else 0)
      let installed_packages : Int :=
        (dbm.stats.packages : Int) + (if db.simulate then pkg_diff else 0)
      some (installed_bytes, installed_packages)
  { ret := (errors : Int), db := dbm,
    stats_counted := stats_counted, diff_shown := diff_shown, prompted := prompted,
    pre_hooks_ran := pre_hooks_ran, apply_ran := apply_ran,
    config_attempted := true, post_hooks_ran := true, summary := summary }

/-- Model of `apk_solver_commit_changeset` (commit.c lines 282-428).  The
`changes` argument is `none` when the changeset's change array is the NULL
pointer (commit.c line 300).  Aborts (world check, interactive decline,
pre-commit hook veto) return -1 with the database state untouched. -/
def apk_solver_commit_changeset (db : Database) (env : Env)
    (changes : Option (List Change)) (world : List Nat) : CommitResult :=
  if env.check_world_ok = false then
    { ret := -1, db := db.mut0, stats_counted := false, diff_shown := false,
      prompted := false, pre_hooks_ran := false, apply_ran := false,
      config_attempted := false, post_hooks_ran := false, summary := none }
  else
    match changes with
    | none => all_done db env db.mut0 world 0 0 0 false false false false false
    | some cs =>
      if interactive_declines db env cs = true then
        { ret := -1, db := db.mut0, stats_counted := true,
          diff_shown := show_diff_block db, prompted := true,
          pre_hooks_ran := false, apply_ran := false,
          config_attempted := false, post_hooks_ran := false, summary := none }
      else if run_commit_hooks db env PRE_COMMIT_HOOK = -2 then
        { ret := -1, db := db.mut0, stats_counted := true,
          diff_shown := show_diff_block db, prompted := prompt_shown db cs,
          pre_hooks_ran := true, apply_ran := false,
          config_attempted := false, post_hooks_ran := false, summary := none }
      else
        all_done db env (apply_changes db env 0 cs ⟨0, db.mut0⟩).db world
          ((apply_changes db env 0 cs ⟨0, db.mut0⟩).errors +
            env.num_dir_update_errors + run_triggers db env cs)
          (precount db cs).size_diff (precount db cs).pkg_diff
          true (show_diff_block db) (prompt_shown db cs) true true

/-! ### Diagnostic graph engine (commit.c lines 430-795) -/

/-- State flag `STATE_PRESENT` (commit.c line 431). -/
def STATE_PRESENT : Nat := 0x80000000

/-- State flag `STATE_MISSING` (commit.c line 432). -/
def STATE_MISSING : Nat := 0x40000000

/-- State flag `STATE_VIRTUAL_ONLY` (commit.c line 433). -/
def STATE_VIRTUAL_ONLY : Nat := 0x20000000

/-- State flag `STATE_INSTALLIF` (commit.c line 434). -/
def STATE_INSTALLIF : Nat := 0x10000000

/-- A provider entry of a name (`struct apk_provider`): the providing package
handle and whether its provider version is the null atom. -/
structure GProvider where
  pkg : Nat
  ver_null : Bool
deriving DecidableEq, Repr

/-- A dependency entry (`struct apk_dependency`) as used by the diagnostic
engine: target name handle, whether the version is the null atom
(`&apk_atom_null`), and the conflict polarity (`apk_dep_conflict`). -/
structure GDep where
  name : Nat
  ver_null : Bool
  conflict : Bool
deriving DecidableEq, Repr

/-- The entity graph read by the diagnostic traversal: providers per name,
the solver's `marked` bit, owning name / provides / depends / install_if /
provider_priority per package, and the reverse conditional-install index
`rinstall_if` per name. -/
structure Graph where
  providers : Nat → List GProvider
  marked : Nat → Bool
  pkg_name : Nat → Nat
  provides : Nat → List GDep
  depends : Nat → List GDep
  inst_if : Nat → List GDep
  rinstall_if : Nat → List Nat
  provider_priority : Nat → Nat

/-- The transient `state_int` marks of all names and packages. -/
structure DState where
  name_st : Nat → Nat
  pkg_st : Nat → Nat

/-- Model of `is_name_concrete` (commit.c lines 744-754): the package's own
name is the target name, or some provides entry for that name carries a
non-null version. -/
def is_name_concrete (g : Graph) (pkg name : Nat) : Bool :=
  if g.pkg_name pkg = name then true
  else (g.provides pkg).any (fun d => d.name = name && !d.ver_null)

/-- The effective state computed for one provider package (commit.c lines
764-766): `Present`/`InstallIf` is downgraded to `VirtualOnly` when the
package has no provider priority and is not concrete for the name. -/
def effective_state (g : Graph) (pkg name pkg_state : Nat) : Nat :=
  if (pkg_state = STATE_PRESENT ∨ pkg_state = STATE_INSTALLIF) ∧
      g.provider_priority pkg = 0 ∧ is_name_concrete g pkg name = false then
    STATE_VIRTUAL_ONLY
  else pkg_state

/-- OR a state into the mark of one name. -/
def mark_name (k s : Nat) (σ : DState) : DState :=
  { σ with name_st := Function.update σ.name_st k (σ.name_st k ||| s) }

/-- The mark writes of one accepted provider (commit.c lines 768-776): OR the
state into the package, into its owning name, and into every provided name
(an `InstallIf` state degrades to `VirtualOnly` on null-versioned provides). -/
def mark_package (g : Graph) (pkg state : Nat) (σ : DState) : DState :=
  (g.provides pkg).foldl
    (fun σ d =>
      mark_name d.name
        (if state = STATE_INSTALLIF ∧ d.ver_null = true then STATE_VIRTUAL_ONLY else state) σ)
    (mark_name (g.pkg_name pkg) state
      { σ with pkg_st := Function.update σ.pkg_st pkg (σ.pkg_st pkg ||| state) })

/-- Model of `discover_deps` (commit.c lines 787-795), parameterized by the
recursive `discover_name` call. -/
def discover_deps (recurse : Nat → Nat → DState → DState) (deps : List GDep)
    (σ : DState) : DState :=
  deps.foldl
    (fun σ d => if d.conflict then σ else recurse d.name STATE_PRESENT σ)
    σ

/-- Model of `discover_reverse_iif` (commit.c lines 716-742), parameterized by
the recursive `discover_name` call: for every reverse install_if edge's
provider that is marked and whose install_if conditions all hold against the
current marks, discover its owning name and every provided name with the
`InstallIf` state. -/
def discover_reverse_iif (g : Graph) (recurse : Nat → Nat → DState → DState)
    (name : Nat) (σ : DState) : DState :=
  (g.rinstall_if name).foldl
    (fun σ name0 =>
      (g.providers name0).foldl
        (fun σ p =>
          if g.marked p.pkg = false then σ
          else if (g.inst_if p.pkg).length = 0 then σ
          else if (g.inst_if p.pkg).all
              (fun d => d.conflict !=
                decide (σ.name_st d.name &&& (STATE_PRESENT ||| STATE_INSTALLIF) ≠ 0)) then
            let σ := recurse (g.pkg_name p.pkg) STATE_INSTALLIF σ
            (g.provides p.pkg).foldl (fun σ d => recurse d.name STATE_INSTALLIF σ) σ
          else σ)
        σ)
    σ

/-- Tail of one accepted provider step (commit.c lines 779-783): for a
`Present`/`InstallIf` state re-evaluate the reverse install_if edges of the
owning name and of every provided name. -/
def discover_provider_tail (g : Graph) (recurse : Nat → Nat → DState → DState)
    (state pkg : Nat) (σ : DState) : DState :=
  if state = STATE_PRESENT ∨ state = STATE_INSTALLIF then
    (g.provides pkg).foldl (fun σ d => discover_reverse_iif g recurse d.name σ)
      (discover_reverse_iif g recurse (g.pkg_name pkg) σ)
  else σ

/-- The body of `discover_name` for one provider entry (commit.c lines
761-784), parameterized by the recursive call: skip unmarked providers,
compute the effective state, skip if that state bit is already set
(bit-test-and-set), otherwise set the marks, discover the dependencies, and
finish with `discover_provider_tail`. -/
def discover_provider (g : Graph) (recurse : Nat → Nat → DState → DState)
    (name pkg_state : Nat) (p : GProvider) (σ : DState) : DState :=
  if g.marked p.pkg = false then σ
  else if σ.pkg_st p.pkg &&& effective_state g p.pkg name pkg_state ≠ 0 then σ
  else
    discover_provider_tail g recurse (effective_state g p.pkg name pkg_state) p.pkg
      (discover_deps recurse (g.depends p.pkg)
        (mark_package g p.pkg (effective_state g p.pkg name pkg_state) σ))

/-- Model of `discover_name` (commit.c lines 756-785).  The C recursion
terminates because every recursive call is guarded by setting a previously
unset state bit; the embedding makes this explicit with a recursion-depth
fuel, consumed one unit per nested `discover_name` activation. -/
def discover_name (g : Graph) (fuel name pkg_state : Nat) (σ : DState) : DState :=
  match fuel with
  | 0 => σ
  | f + 1 =>
    (g.providers name).foldl
      (fun σ p =>
        discover_provider g (fun n s σ => discover_name g f n s σ) name pkg_state p σ)
      σ

/-! ### Bitmask ordering: the marking traversal only ever ORs bits in, so
states grow along `mask_sub`. -/

/-- `a` is a submask of `b`. -/
def mask_sub (a b : Nat) : Prop := a ||| b = b

theorem mask_sub_refl (a : Nat) : mask_sub a a := Nat.or_self a

theorem mask_sub_trans {a b c : Nat} (h1 : mask_sub a b) (h2 : mask_sub b c) :
    mask_sub a c := by
  unfold mask_sub at *
  rw [← h2, ← Nat.or_assoc, h1]

theorem mask_sub_or_right (a s : Nat) : mask_sub a (a ||| s) := by
  unfold mask_sub
  rw [← Nat.or_assoc, Nat.or_self]

theorem mask_sub_or_left (s a : Nat) : mask_sub s (a ||| s) := by
  unfold mask_sub
  rw [Nat.or_comm a s, ← Nat.or_assoc, Nat.or_self]

theorem mask_sub_hit {a b m : Nat} (h : mask_sub a b) (hm : a &&& m ≠ 0) :
    b &&& m ≠ 0 := by
  intro h0
  have hd : (a ||| b) &&& m = (a &&& m) ||| (b &&& m) := Nat.and_distrib_right a b m
  rw [h, h0, Nat.or_zero] at hd
  exact hm hd.symm

theorem hit_or_self {s : Nat} (a : Nat) (hs : s ≠ 0) : (a ||| s) &&& s ≠ 0 :=
  mask_sub_hit (mask_sub_or_left s a) (by rw [Nat.and_self]; exact hs)

/-- Pointwise submask order on mark states. -/
def dle (σ τ : DState) : Prop :=
  (∀ n, mask_sub (σ.name_st n) (τ.name_st n)) ∧
  (∀ p, mask_sub (σ.pkg_st p) (τ.pkg_st p))

theorem dle_refl (σ : DState) : dle σ σ :=
  ⟨fun _ => mask_sub_refl _, fun _ => mask_sub_refl _⟩

theorem dle_trans {σ τ ρ : DState} (h1 : dle σ τ) (h2 : dle τ ρ) : dle σ ρ :=
  ⟨fun n => mask_sub_trans (h1.1 n) (h2.1 n), fun p => mask_sub_trans (h1.2 p) (h2.2 p)⟩

theorem dle_hit_pkg {σ τ : DState} {p m : Nat} (h : dle σ τ)
    (hm : σ.pkg_st p &&& m ≠ 0) : τ.pkg_st p &&& m ≠ 0 :=
  mask_sub_hit (h.2 p) hm

theorem foldl_dle {α : Type} {f : DState → α → DState}
    (h : ∀ σ a, dle σ (f σ a)) : ∀ (l : List α) (σ : DState), dle σ (l.foldl f σ)
  | [], σ => dle_refl σ
  | a :: l, σ => dle_trans (h σ a) (foldl_dle h l (f σ a))

theorem dle_update_name (σ : DState) (k s : Nat) :
    dle σ { σ with name_st := Function.update σ.name_st k (σ.name_st k ||| s) } := by
  refine ⟨fun n => ?_, fun p => mask_sub_refl _⟩
  by_cases h : n = k
  · subst h
    simp only [Function.update_same]
    exact mask_sub_or_right _ _
  · simp only [Function.update_noteq h]
    exact mask_sub_refl _

theorem dle_update_pkg (σ : DState) (k s : Nat) :
    dle σ { σ with pkg_st := Function.update σ.pkg_st k (σ.pkg_st k ||| s) } := by
  refine ⟨fun n => mask_sub_refl _, fun p => ?_⟩
  by_cases h : p = k
  · subst h
    simp only [Function.update_same]
    exact mask_sub_or_right _ _
  · simp only [Function.update_noteq h]
    exact mask_sub_refl _

theorem mark_name_dle (k s : Nat) (σ : DState) : dle σ (mark_name k s σ) := by
  unfold mark_name
  exact dle_update_name σ k s

theorem mark_package_dle (g : Graph) (pkg state : Nat) (σ : DState) :
    dle σ (mark_package g pkg state σ) := by
  unfold mark_package
  refine dle_trans (dle_update_pkg σ pkg state) ?_
  refine dle_trans (mark_name_dle (g.pkg_name pkg) state _) ?_
  exact foldl_dle (fun σ (d : GDep) => mark_name_dle d.name _ σ) _ _

theorem discover_deps_dle {recurse : Nat → Nat → DState → DState}
    (hrec : ∀ n s σ, dle σ (recurse n s σ)) (deps : List GDep) (σ : DState) :
    dle σ (discover_deps recurse deps σ) := by
  refine foldl_dle (fun σ d => ?_) deps σ
  dsimp only
  split
  · exact dle_refl σ
  · exact hrec _ _ σ

theorem discover_reverse_iif_dle {g : Graph} {recurse : Nat → Nat → DState → DState}
    (hrec : ∀ n s σ, dle σ (recurse n s σ)) (name : Nat) (σ : DState) :
    dle σ (discover_reverse_iif g recurse name σ) := by
  unfold discover_reverse_iif
  refine foldl_dle (fun σ name0 => ?_) _ σ
  refine foldl_dle (fun σ p => ?_) _ σ
  dsimp only
  split
  · exact dle_refl σ
  · split
    · exact dle_refl σ
    · split
      · exact dle_trans (hrec _ _ σ) (foldl_dle (fun σ d => hrec _ _ σ) _ _)
      · exact dle_refl σ

theorem discover_provider_dle {g : Graph} {recurse : Nat → Nat → DState → DState}
    (hrec : ∀ n s σ, dle σ (recurse n s σ)) (name pkg_state : Nat) (p : GProvider)
    (σ : DState) : dle σ (discover_provider g recurse name pkg_state p σ) := by
  unfold discover_provider
  split
  · exact dle_refl σ
  · split
    · exact dle_refl σ
    · refine dle_trans (mark_package_dle g p.pkg (effective_state g p.pkg name pkg_state) σ) ?_
      refine dle_trans (discover_deps_dle hrec (g.depends p.pkg) _) ?_
      unfold discover_provider_tail
      split
      · exact dle_trans (discover_reverse_iif_dle hrec _ _)
          (foldl_dle (fun σ (d : GDep) => discover_reverse_iif_dle hrec d.name σ) _ _)
      · exact dle_refl _

theorem discover_name_dle (g : Graph) :
    ∀ (fuel name pkg_state : Nat) (σ : DState), dle σ (discover_name g fuel name pkg_state σ) := by
  intro fuel
  induction fuel with
  | zero => intro n s σ; exact dle_refl σ
  | succ f ih =>
    intro n s σ
    simp only [discover_name]
    exact foldl_dle (fun σ p => discover_provider_dle (fun n s σ => ih n s σ) n s p σ) _ σ

theorem foldl_pkg_st_const {α : Type} (f : DState → α → DState)
    (h : ∀ σ a, (f σ a).pkg_st = σ.pkg_st) :
    ∀ (l : List α) (σ : DState), (l.foldl f σ).pkg_st = σ.pkg_st
  | [], _ => rfl
  | a :: l, σ => by rw [List.foldl_cons, foldl_pkg_st_const f h l (f σ a), h σ a]

theorem mark_package_pkg_st (g : Graph) (pkg state : Nat) (σ : DState) :
    (mark_package g pkg state σ).pkg_st =
      Function.update σ.pkg_st pkg (σ.pkg_st pkg ||| state) := by
  unfold mark_package
  rw [foldl_pkg_st_const
    (fun σ (d : GDep) =>
      mark_name d.name
        (if state = STATE_INSTALLIF ∧ d.ver_null = true then STATE_VIRTUAL_ONLY else state) σ)
    (fun σ d => rfl)]
  rfl

theorem effective_state_ne_zero {g : Graph} {pkg name pkg_state : Nat}
    (h : pkg_state ≠ 0) : effective_state g pkg name pkg_state ≠ 0 := by
  unfold effective_state
  split
  · decide
  · exact h

theorem discover_provider_hit {g : Graph} {recurse : Nat → Nat → DState → DState}
    (hrec : ∀ n s σ, dle σ (recurse n s σ)) {name pkg_state : Nat} {p : GProvider}
    (σ : DState) (hps : pkg_state ≠ 0) (hm : g.marked p.pkg = true) :
    (discover_provider g recurse name pkg_state p σ).pkg_st p.pkg &&&
      effective_state g p.pkg name pkg_state ≠ 0 := by
  unfold discover_provider
  rw [hm]
  simp only [Bool.true_eq_false, if_false]
  by_cases hskip : σ.pkg_st p.pkg &&& effective_state g p.pkg name pkg_state ≠ 0
  · rw [if_pos hskip]
    exact hskip
  · rw [if_neg hskip]
    have hmark : (mark_package g p.pkg (effective_state g p.pkg name pkg_state) σ).pkg_st
        p.pkg &&& effective_state g p.pkg name pkg_state ≠ 0 := by
      rw [mark_package_pkg_st, Function.update_same]
      exact hit_or_self _ (effective_state_ne_zero hps)
    refine dle_hit_pkg ?_ hmark
    refine dle_trans (discover_deps_dle hrec (g.depends p.pkg) _) ?_
    unfold discover_provider_tail
    split
    · exact dle_trans (discover_reverse_iif_dle hrec _ _)
        (foldl_dle (fun σ (d : GDep) => discover_reverse_iif_dle hrec d.name σ) _ _)
    · exact dle_refl _

theorem discover_fold_hits {g : Graph} {recurse : Nat → Nat → DState → DState}
    (hrec : ∀ n s σ, dle σ (recurse n s σ)) {name pkg_state : Nat}
    (hps : pkg_state ≠ 0) :
    ∀ (l : List GProvider) (σ : DState) (p : GProvider), p ∈ l →
      g.marked p.pkg = true →
      (l.foldl (fun σ p => discover_provider g recurse name pkg_state p σ) σ).pkg_st
          p.pkg &&& effective_state g p.pkg name pkg_state ≠ 0 := by
  intro l
  induction l with
  | nil =>
    intro σ p hp
    exact absurd hp (List.not_mem_nil p)
  | cons q l ih =>
    intro σ p hp hm
    rw [List.foldl_cons]
    rcases List.mem_cons.mp hp with h | h
    · subst h
      refine dle_hit_pkg
        (foldl_dle (fun σ q => discover_provider_dle hrec name pkg_state q σ) l _)
        (discover_provider_hit hrec σ hps hm)
    · exact ih _ p h hm

theorem discover_fold_id {g : Graph} {recurse : Nat → Nat → DState → DState}
    {name pkg_state : Nat} :
    ∀ (l : List GProvider) (σ : DState),
      (∀ p, p ∈ l → g.marked p.pkg = true →
        σ.pkg_st p.pkg &&& effective_state g p.pkg name pkg_state ≠ 0) →
      l.foldl (fun σ p => discover_provider g recurse name pkg_state p σ) σ = σ := by
  intro l
  induction l with
  | nil => intro σ _; rfl
  | cons q l ih =>
    intro σ h
    rw [List.foldl_cons]
    have hq : discover_provider g recurse name pkg_state q σ = σ := by
      unfold discover_provider
      cases hm : g.marked q.pkg with
      | false => rw [if_pos rfl]
      | true =>
        rw [if_neg (by simp)]
        rw [if_pos (h q (List.mem_cons_self q l) hm)]
    rw [hq]
    exact ih σ (fun p hp => h p (List.mem_cons_of_mem q hp))

/-! ### Lemmas about the apply loop and the commit tail -/

theorem apply_change_errors (db : Database) (env : Env) (i : Nat) (c : Change)
    (st : ApplyState) :
    (apply_change db env i c st).errors = st.errors + change_error db env i c := by
  unfold apply_change
  split <;> rfl

theorem apply_changes_errors (db : Database) (env : Env) :
    ∀ (cs : List Change) (i : Nat) (st : ApplyState),
      (apply_changes db env i cs st).errors = st.errors + errors_from db env i cs
  | [], i, st => by simp [apply_changes, errors_from]
  | c :: cs, i, st => by
    simp only [apply_changes, errors_from]
    rw [apply_changes_errors db env cs (i + 1) _, apply_change_errors]
    omega

theorem apply_tag_update_stats (db : Database) (c : Change) (r : Nat) (m : DbMut) :
    (apply_tag_update db c r m).stats = m.stats := by
  unfold apply_tag_update
  split
  · cases c.new_pkg with
    | none => rfl
    | some n =>
      dsimp only
      split <;> rfl
  · rfl

theorem change_do_install_simulate {db : Database} (h : db.simulate = true) (c : Change) :
    change_do_install db c = false := by
  unfold change_do_install
  rw [h]
  rfl

theorem apply_change_stats_simulate {db : Database} {env : Env} {i : Nat} {c : Change}
    {st : ApplyState} (h : db.simulate = true) :
    (apply_change db env i c st).db.stats = st.db.stats := by
  unfold apply_change
  split
  · simp [apply_tag_update_stats, change_do_install_simulate h c]
  · rfl

theorem apply_changes_stats_simulate (db : Database) (env : Env) (h : db.simulate = true) :
    ∀ (cs : List Change) (i : Nat) (st : ApplyState),
      (apply_changes db env i cs st).db.stats = st.db.stats
  | [], _, _ => rfl
  | c :: cs, i, st => by
    simp only [apply_changes]
    rw [apply_changes_stats_simulate db env h cs (i + 1) _]
    exact apply_change_stats_simulate h

theorem change_error_simulate {db : Database} {env : Env} {i : Nat} {c : Change}
    (h : db.simulate = true) : change_error db env i c = change_broken db c := by
  unfold change_error
  rw [change_do_install_simulate h c]
  simp

/-- Number of changes whose old installed package is flagged broken. -/
def broken_count (db : Database) : List Change → Nat
  | [] => 0
  | c :: cs => change_broken db c + broken_count db cs

theorem errors_from_simulate (db : Database) (env : Env) (h : db.simulate = true) :
    ∀ (cs : List Change) (i : Nat), errors_from db env i cs = broken_count db cs
  | [], _ => rfl
  | c :: cs, i => by
    simp only [errors_from, broken_count]
    rw [change_error_simulate h, errors_from_simulate db env h cs (i + 1)]

theorem all_done_ret (db : Database) (env : Env) (dbm : DbMut) (world : List Nat)
    (errors : Nat) (sd pd : Int) (a b c d e : Bool) :
    (all_done db env dbm world errors sd pd a b c d e).ret =
      ((if env.write_config_ok then errors else errors + 1 : Nat) : Int) := rfl

theorem all_done_world (db : Database) (env : Env) (dbm : DbMut) (world : List Nat)
    (errors : Nat) (sd pd : Int) (a b c d e : Bool) :
    (all_done db env dbm world errors sd pd a b c d e).db.world = world := rfl

theorem all_done_stats (db : Database) (env : Env) (dbm : DbMut) (world : List Nat)
    (errors : Nat) (sd pd : Int) (a b c d e : Bool) :
    (all_done db env dbm world errors sd pd a b c d e).db.stats = dbm.stats := rfl

theorem all_done_summary (db : Database) (env : Env) (dbm : DbMut) (world : List Nat)
    (errors : Nat) (sd pd : Int) (a b c d e : Bool) :
    (all_done db env dbm world errors sd pd a b c d e).summary =
      if db.performing_self_upgrade then none
      else some ((dbm.stats.bytes : Int) + (if db.simulate then sd else 0),
                 (dbm.stats.packages : Int) + (if db.simulate then pd else 0)) := rfl

theorem commit_apply_eq (db : Database) (env : Env) (cs : List Change) (world : List Nat)
    (h1 : env.check_world_ok = true)
    (h2 : interactive_declines db env cs = false)
    (h3 : ¬ run_commit_hooks db env PRE_COMMIT_HOOK = -2) :
    apk_solver_commit_changeset db env (some cs) world =
      all_done db env (apply_changes db env 0 cs ⟨0, db.mut0⟩).db world
        ((apply_changes db env 0 cs ⟨0, db.mut0⟩).errors +
          env.num_dir_update_errors + run_triggers db env cs)
        (precount db cs).size_diff (precount db cs).pkg_diff
        true (show_diff_block db) (prompt_shown db cs) true true := by
  simp [apk_solver_commit_changeset, h1, h2, h3]

theorem commit_none_eq (db : Database) (env : Env) (world : List Nat)
    (h1 : env.check_world_ok = true) :
    apk_solver_commit_changeset db env none world =
      all_done db env db.mut0 world 0 0 0 false false false false false := by
  simp [apk_solver_commit_changeset, h1]

/-! ### Claim theorems -/

/-- Concrete database fixture used by witnesses. -/
def db_fix : Database :=
  { simulate := false, interactive := false, no_scripts := false, no_commit_hooks := false,
    verbosity := 0, performing_self_upgrade := false,
    available_repos := 1, local_repos := 1,
    repos := fun _ => 1, installed_size := fun _ => 100, size := fun _ => 50,
    ipkg_broken := fun _ => false, has_ipkg := fun _ => true,
    pending_triggers_len := fun _ => 0, ver_cmp := fun _ _ => Ordering.eq,
    world0 := [], stats0 := ⟨0, 0, 0, 0⟩, ipkg_tag0 := fun _ => 0 }

/-- Concrete environment fixture used by witnesses: every external call
succeeds, the hook directory is missing, stdin is at EOF. -/
def env_fix : Env :=
  { check_world_ok := true, prompt_answer := none, hook_files := none,
    pre_hook_fail := fun _ => false, post_hook_fail := fun _ => false,
    install_result := fun _ => 0, install_stats := fun _ s => s,
    num_dir_update_errors := 0, fire_triggers := 0,
    trigger_script_fail := fun _ => false, write_config_ok := true }

/-- C3: a `Change` with `old_pkg == new_pkg`, `reinstall == false` and equal
repository tags leaves all three statistics fields (bytes, changes, packages)
of the accumulator unchanged under `count_change`. -/
theorem count_change_noop (db : Database) (c : Change) (s : ApkStats)
    (h1 : c.old_pkg = c.new_pkg) (h2 : c.reinstall = false)
    (h3 : c.old_repository_tag = c.new_repository_tag) :
    count_change db c s = s := by
  simp [count_change, h1, h2, h3]

/-- Witness for C3 at a concrete no-op change. -/
theorem count_change_noop_witness :
    count_change db_fix ⟨some 1, some 1, false, 2, 2⟩ ⟨5, 6, 7⟩ = ⟨5, 6, 7⟩ :=
  count_change_noop db_fix ⟨some 1, some 1, false, 2, 2⟩ ⟨5, 6, 7⟩ rfl rfl rfl

/-- C4: running `discover_name` twice with the same state argument on the same
entity graph produces exactly the same marks (`state_int` bits of every name
and package) as running it once: the bit-test-and-set guard makes the
diagnostic marking traversal idempotent.  `pkg_state` ranges over the nonzero
state bit constants (the code passes `STATE_PRESENT` or `STATE_INSTALLIF`). -/
theorem discover_name_idempotent (g : Graph) (fuel name pkg_state : Nat) (σ : DState)
    (h : pkg_state ≠ 0) :
    discover_name g fuel name pkg_state (discover_name g fuel name pkg_state σ) =
      discover_name g fuel name pkg_state σ := by
  cases fuel with
  | zero => rfl
  | succ f =>
    simp only [discover_name]
    apply discover_fold_id
    intro p hp hm
    exact discover_fold_hits (fun n s σ => discover_name_dle g f n s σ) h
      (g.providers name) σ p hp hm

/-- Concrete two-package graph fixture: name 0 is provided by packages 0
and 1, package 1 provides name 0 virtually and depends on name 1. -/
def g_fix : Graph :=
  { providers := fun n => if n = 0 then [⟨0, false⟩, ⟨1, true⟩] else [],
    marked := fun _ => true,
    pkg_name := fun p => if p = 0 then 0 else 2,
    provides := fun p => if p = 1 then [⟨0, true, false⟩] else [],
    depends := fun p => if p = 1 then [⟨1, true, false⟩] else [],
    inst_if := fun _ => [],
    rinstall_if := fun _ => [],
    provider_priority := fun _ => 0 }

/-- Witness for C4: idempotence at a concrete graph, fuel and state. -/
theorem discover_name_idempotent_witness :
    discover_name g_fix 3 0 STATE_PRESENT
        (discover_name g_fix 3 0 STATE_PRESENT ⟨fun _ => 0, fun _ => 0⟩) =
      discover_name g_fix 3 0 STATE_PRESENT ⟨fun _ => 0, fun _ => 0⟩ :=
  discover_name_idempotent g_fix 3 0 STATE_PRESENT ⟨fun _ => 0, fun _ => 0⟩ (by decide)

/-- C5: for an incoming state `Present` or `InstallIf`, the effective state
computed for a provider package is `VirtualOnly` exactly when the package has
no provider priority and is not concrete for the name: its own name differs
from the target name and none of its provides entries for that name carries a
non-null version. -/
theorem effective_state_virtual_only_iff (g : Graph) (pkg name pkg_state : Nat)
    (h : pkg_state = STATE_PRESENT ∨ pkg_state = STATE_INSTALLIF) :
    effective_state g pkg name pkg_state = STATE_VIRTUAL_ONLY ↔
      (g.provider_priority pkg = 0 ∧ g.pkg_name pkg ≠ name ∧
        ∀ d ∈ g.provides pkg, d.name = name → d.ver_null = true) := by
  have hconc : is_name_concrete g pkg name = false ↔
      (g.pkg_name pkg ≠ name ∧ ∀ d ∈ g.provides pkg, d.name = name → d.ver_null = true) := by
    unfold is_name_concrete
    split
    · rename_i hpn
      simp [hpn]
    · rename_i hpn
      simp only [List.any_eq_false]
      constructor
      · intro ha
        refine ⟨hpn, fun d hd hdn => ?_⟩
        have := ha d hd
        simp [hdn] at this
        exact this
      · intro ⟨_, ha⟩ d hd
        by_cases hdn : d.name = name
        · simp [hdn, ha d hd hdn]
        · simp [hdn]
  unfold effective_state
  split
  · rename_i hc
    exact ⟨fun _ => ⟨hc.2.1, hconc.mp hc.2.2⟩, fun _ => rfl⟩
  · rename_i hc
    constructor
    · intro he
      exfalso
      rcases h with h | h <;> rw [h] at he <;> exact absurd he (by decide)
    · intro ⟨hp, hn, hv⟩
      exact absurd ⟨h, hp, hconc.mpr ⟨hn, hv⟩⟩ hc

/-- Witness for C5: package 1 of the fixture graph provides name 0 only with a
null version, so its `Present` state is downgraded to `VirtualOnly`. -/
theorem effective_state_virtual_only_iff_witness :
    effective_state g_fix 1 0 STATE_PRESENT = STATE_VIRTUAL_ONLY ↔
      (g_fix.provider_priority 1 = 0 ∧ g_fix.pkg_name 1 ≠ 0 ∧
        ∀ d ∈ g_fix.provides 1, d.name = 0 → d.ver_null = true) :=
  effective_state_virtual_only_iff g_fix 1 0 STATE_PRESENT (Or.inl rfl)

theorem apply_change_env_swap (db : Database) (env : Env) (g : List Char → Bool)
    (i : Nat) (c : Change) (st : ApplyState) :
    apply_change db { env with post_hook_fail := g } i c st = apply_change db env i c st := rfl

theorem apply_changes_env_swap (db : Database) (env : Env) (g : List Char → Bool) :
    ∀ (cs : List Change) (i : Nat) (st : ApplyState),
      apply_changes db { env with post_hook_fail := g } i cs st = apply_changes db env i cs st
  | [], _, _ => rfl
  | c :: cs, i, st => by
    simp only [apply_changes]
    rw [apply_change_env_swap, apply_changes_env_swap db env g cs (i + 1) _]

theorem interactive_declines_env_swap (db : Database) (env : Env) (g : List Char → Bool)
    (cs : List Change) :
    interactive_declines db { env with post_hook_fail := g } cs =
      interactive_declines db env cs := rfl

theorem run_commit_hooks_pre_env_swap (db : Database) (env : Env) (g : List Char → Bool) :
    run_commit_hooks db { env with post_hook_fail := g } PRE_COMMIT_HOOK =
      run_commit_hooks db env PRE_COMMIT_HOOK := rfl

theorem run_triggers_env_swap (db : Database) (env : Env) (g : List Char → Bool)
    (cs : List Change) :
    run_triggers db { env with post_hook_fail := g } cs = run_triggers db env cs := rfl

theorem all_done_env_swap (db : Database) (env : Env) (g : List Char → Bool)
    (dbm : DbMut) (world : List Nat) (errors : Nat) (sd pd : Int) (a b c d e : Bool) :
    all_done db { env with post_hook_fail := g } dbm world errors sd pd a b c d e =
      all_done db env dbm world errors sd pd a b c d e := rfl

/-- Environment fixture in which every install fails. -/
def env_fail : Env := { env_fix with install_result := fun _ => 1 }

/-- Environment fixture in which the hook directory has one entry whose
script fails. -/
def env_veto : Env :=
  { env_fix with hook_files := some [['h', 'o', 'o', 'k']],
                 pre_hook_fail := fun _ => true }

/-- A two-change changeset fixture: one install, one removal. -/
def cs_fix : List Change :=
  [⟨none, some 3, false, 0, 0⟩, ⟨some 4, none, false, 0, 0⟩]

/-- C1: once the apply loop starts (the commit was aborted neither by the
world check, nor by the interactive prompt, nor by a pre-commit hook veto),
it iterates over every `Change` of the changeset: a failing change increments
the error counter without stopping the loop, and the return value equals the
total accumulated error count, 0 meaning fully clean (per-change errors plus
directory-update errors, trigger errors and a config-write failure). -/
theorem commit_ret_is_error_count (db : Database) (env : Env) (cs : List Change)
    (world : List Nat) (h1 : env.check_world_ok = true)
    (h2 : interactive_declines db env cs = false)
    (h3 : ¬ run_commit_hooks db env PRE_COMMIT_HOOK = -2) :
    (apk_solver_commit_changeset db env (some cs) world).apply_ran = true ∧
    (apk_solver_commit_changeset db env (some cs) world).ret =
      ((errors_from db env 0 cs + env.num_dir_update_errors + run_triggers db env cs +
        (if env.write_config_ok then 0 else 1) : Nat) : Int) := by
  rw [commit_apply_eq db env cs world h1 h2 h3]
  refine ⟨rfl, ?_⟩
  rw [all_done_ret, apply_changes_errors]
  cases hw : env.write_config_ok <;> simp

/-- Witness for C1: both fixture changes are applied, the failing installs are
counted, and the return value is the sum of all error sources. -/
theorem commit_ret_is_error_count_witness :
    (apk_solver_commit_changeset db_fix env_fail (some cs_fix) []).apply_ran = true ∧
    (apk_solver_commit_changeset db_fix env_fail (some cs_fix) []).ret =
      ((errors_from db_fix env_fail 0 cs_fix + env_fail.num_dir_update_errors +
        run_triggers db_fix env_fail cs_fix +
        (if env_fail.write_config_ok then 0 else 1) : Nat) : Int) :=
  commit_ret_is_error_count db_fix env_fail cs_fix [] rfl (by decide) (by decide)

/-- C2: every commit that reaches the apply phase replaces the database world
with the passed target world and attempts the configuration write, regardless
of how many per-change errors occurred during application. -/
theorem commit_persists_target_world (db : Database) (env : Env) (cs : List Change)
    (world : List Nat) (h1 : env.check_world_ok = true)
    (h2 : interactive_declines db env cs = false)
    (h3 : ¬ run_commit_hooks db env PRE_COMMIT_HOOK = -2) :
    (apk_solver_commit_changeset db env (some cs) world).db.world = world ∧
    (apk_solver_commit_changeset db env (some cs) world).config_attempted = true := by
  rw [commit_apply_eq db env cs world h1 h2 h3]
  exact ⟨rfl, rfl⟩

/-- Witness for C2: even with every install failing, the persisted world is
the target world and configuration is written. -/
theorem commit_persists_target_world_witness :
    (apk_solver_commit_changeset db_fix env_fail (some cs_fix) [5]).db.world = [5] ∧
    (apk_solver_commit_changeset db_fix env_fail (some cs_fix) [5]).config_attempted = true :=
  commit_persists_target_world db_fix env_fail cs_fix [5] rfl (by decide) (by decide)

/-- C6: hook directory entries whose name starts with a dot are skipped; a
hook script failure in the pre-commit phase aborts the whole commit with -1
before any package mutation; a post-commit hook script failure never affects
the returned error count. -/
theorem commit_hook_contract :
    (∀ (db : Database) (env : Env) (typ : Nat) (rest : List Char),
        run_commit_hook db env typ ('.' :: rest) = 0) ∧
    (∀ (db : Database) (env : Env) (cs : List Change) (world : List Nat),
        env.check_world_ok = true →
        interactive_declines db env cs = false →
        run_commit_hooks db env PRE_COMMIT_HOOK = -2 →
        (apk_solver_commit_changeset db env (some cs) world).ret = -1 ∧
        (apk_solver_commit_changeset db env (some cs) world).db = db.mut0 ∧
        (apk_solver_commit_changeset db env (some cs) world).apply_ran = false ∧
        (apk_solver_commit_changeset db env (some cs) world).config_attempted = false) ∧
    (∀ (db : Database) (env : Env) (g : List Char → Bool)
        (changes : Option (List Change)) (world : List Nat),
        (apk_solver_commit_changeset db { env with post_hook_fail := g } changes world).ret =
          (apk_solver_commit_changeset db env changes world).ret) := by
  refine ⟨?_, ?_, ?_⟩
  · intro db env typ rest
    simp [run_commit_hook]
  · intro db env cs world h1 h2 h3
    simp [apk_solver_commit_changeset, h1, h2, h3]
  · intro db env g changes world
    cases changes with
    | none => rfl
    | some cs =>
      simp only [apk_solver_commit_changeset, interactive_declines_env_swap,
        run_commit_hooks_pre_env_swap, apply_changes_env_swap, run_triggers_env_swap,
        all_done_env_swap]

/-- Witness for C6: a dotted entry is skipped, a failing pre-commit hook
vetoes the fixture commit, and flipping every post-commit hook to failing
leaves the returned error count unchanged. -/
theorem commit_hook_contract_witness :
    run_commit_hook db_fix env_fix 0 ('.' :: ['a']) = 0 ∧
    ((apk_solver_commit_changeset db_fix env_veto (some cs_fix) []).ret = -1 ∧
     (apk_solver_commit_changeset db_fix env_veto (some cs_fix) []).db = db_fix.mut0 ∧
     (apk_solver_commit_changeset db_fix env_veto (some cs_fix) []).apply_ran = false ∧
     (apk_solver_commit_changeset db_fix env_veto (some cs_fix) []).config_attempted = false) ∧
    (apk_solver_commit_changeset db_fix { env_fix with post_hook_fail := fun _ => true }
        (some cs_fix) []).ret =
      (apk_solver_commit_changeset db_fix env_fix (some cs_fix) []).ret :=
  ⟨commit_hook_contract.1 db_fix env_fix 0 ['a'],
   commit_hook_contract.2.1 db_fix env_veto cs_fix [] rfl (by decide) (by decide),
   commit_hook_contract.2.2 db_fix env_fix (fun _ => true) (some cs_fix) []⟩

/-- C7: when the interactive confirmation prompt is shown, any answer other
than `y`, `Y` or enter makes the commit return -1 with no database mutation:
the abort happens before the pre-commit hooks, before the apply loop and
before the world persistence. -/
theorem commit_decline_aborts (db : Database) (env : Env) (cs : List Change)
    (world : List Nat) (ch : Char) (h1 : env.check_world_ok = true)
    (hshow : prompt_shown db cs = true) (ha : env.prompt_answer = some ch)
    (hy : ch ≠ 'y') (hY : ch ≠ 'Y') (hn : ch ≠ '\n') :
    (apk_solver_commit_changeset db env (some cs) world).ret = -1 ∧
    (apk_solver_commit_changeset db env (some cs) world).db = db.mut0 ∧
    (apk_solver_commit_changeset db env (some cs) world).pre_hooks_ran = false ∧
    (apk_solver_commit_changeset db env (some cs) world).apply_ran = false ∧
    (apk_solver_commit_changeset db env (some cs) world).config_attempted = false := by
  have hdecl : interactive_declines db env cs = true := by
    unfold interactive_declines
    rw [hshow, ha]
    simp [bne_iff_ne, hy, hY, hn]
  simp [apk_solver_commit_changeset, h1, hdecl]

/-- Interactive database fixture. -/
def db_int : Database := { db_fix with interactive := true }

/-- Environment fixture in which the user answers `n`. -/
def env_no : Env := { env_fix with prompt_answer := some 'n' }

/-- A one-removal changeset fixture (makes the prompt appear). -/
def cs_rm : List Change := [⟨some 4, none, false, 0, 0⟩]

/-- Witness for C7: answering `n` to the prompt of an interactive removal
aborts with -1 and no mutation. -/
theorem commit_decline_aborts_witness :
    (apk_solver_commit_changeset db_int env_no (some cs_rm) []).ret = -1 ∧
    (apk_solver_commit_changeset db_int env_no (some cs_rm) []).db = db_int.mut0 ∧
    (apk_solver_commit_changeset db_int env_no (some cs_rm) []).pre_hooks_ran = false ∧
    (apk_solver_commit_changeset db_int env_no (some cs_rm) []).apply_ran = false ∧
    (apk_solver_commit_changeset db_int env_no (some cs_rm) []).config_attempted = false :=
  commit_decline_aborts db_int env_no cs_rm [] 'n' rfl (by decide) rfl
    (by decide) (by decide) (by decide)

/-- C8: a commit that reaches the final summary reports, under the simulate
flag, the pre-application counters plus the precomputed deltas (`size_diff`,
`pkg_diff`); without the simulate flag it reports the post-application
counters unmodified. -/
theorem commit_summary_counters (db : Database) (env : Env) (cs : List Change)
    (world : List Nat) (h1 : env.check_world_ok = true)
    (h2 : interactive_declines db env cs = false)
    (h3 : ¬ run_commit_hooks db env PRE_COMMIT_HOOK = -2)
    (h4 : db.performing_self_upgrade = false) :
    (db.simulate = true →
      (apk_solver_commit_changeset db env (some cs) world).summary =
        some ((db.stats0.bytes : Int) + size_diff_of db cs,
              (db.stats0.packages : Int) + pkg_diff_of db cs)) ∧
    (db.simulate = false →
      (apk_solver_commit_changeset db env (some cs) world).summary =
        some (((apk_solver_commit_changeset db env (some cs) world).db.stats.bytes : Int),
          ((apk_solver_commit_changeset db env (some cs) world).db.stats.packages : Int))) := by
  rw [commit_apply_eq db env cs world h1 h2 h3]
  constructor
  · intro hs
    rw [all_done_summary, h4]
    rw [apply_changes_stats_simulate db env hs]
    simp [hs, size_diff_of, pkg_diff_of, Database.mut0]
  · intro hs
    rw [all_done_summary, h4, all_done_stats]
    simp [hs]

/-- Simulate-mode database fixture without broken packages. -/
def db_sim : Database := { db_fix with simulate := true }

/-- Witness for C8 in simulate mode: the reported counters are the entry
counters plus the precomputed deltas. -/
theorem commit_summary_counters_witness :
    (db_sim.simulate = true →
      (apk_solver_commit_changeset db_sim env_fix (some cs_fix) []).summary =
        some ((db_sim.stats0.bytes : Int) + size_diff_of db_sim cs_fix,
              (db_sim.stats0.packages : Int) + pkg_diff_of db_sim cs_fix)) ∧
    (db_sim.simulate = false →
      (apk_solver_commit_changeset db_sim env_fix (some cs_fix) []).summary =
        some (((apk_solver_commit_changeset db_sim env_fix (some cs_fix) []).db.stats.bytes : Int),
          ((apk_solver_commit_changeset db_sim env_fix (some cs_fix) []).db.stats.packages : Int))) :=
  commit_summary_counters db_sim env_fix cs_fix [] rfl (by decide) (by decide) rfl

/-- Simulate-mode database fixture whose package 0 has a broken installed
record. -/
def db_sim_broken : Database :=
  { db_fix with simulate := true, ipkg_broken := fun p => p == 0 }

/-- Counterexample to C9: in simulate mode a change whose old installed
package is flagged broken still increments the error counter, so the commit
returns 1, not 0, although all mutation was skipped. -/
theorem commit_simulate_nonzero_errors :
    (apk_solver_commit_changeset db_sim_broken env_fix
      (some [⟨some 0, some 0, false, 0, 0⟩]) []).ret = 1 := by
  decide

/-- C9 (amended): in simulate mode the install primitive never runs and the
installed counters stay at their entry values, but the error count is not
always 0: the return value equals the number of changes whose old package is
flagged broken, plus directory-update errors, trigger errors and a
config-write failure; it is 0 exactly when all those sources are clean. -/
theorem commit_simulate_ret (db : Database) (env : Env) (cs : List Change)
    (world : List Nat) (h1 : env.check_world_ok = true)
    (h2 : interactive_declines db env cs = false)
    (h3 : ¬ run_commit_hooks db env PRE_COMMIT_HOOK = -2)
    (hs : db.simulate = true) :
    (apk_solver_commit_changeset db env (some cs) world).db.stats = db.stats0 ∧
    (apk_solver_commit_changeset db env (some cs) world).ret =
      ((broken_count db cs + env.num_dir_update_errors + run_triggers db env cs +
        (if env.write_config_ok then 0 else 1) : Nat) : Int) := by
  rw [commit_apply_eq db env cs world h1 h2 h3]
  constructor
  · rw [all_done_stats, apply_changes_stats_simulate db env hs]
    rfl
  · rw [all_done_ret, apply_changes_errors, errors_from_simulate db env hs]
    cases hw : env.write_config_ok <;> simp

/-- Witness for C9 (amended): a clean simulate run returns 0. -/
theorem commit_simulate_ret_witness :
    (apk_solver_commit_changeset db_sim env_fix (some cs_fix) []).db.stats =
        db_sim.stats0 ∧
    (apk_solver_commit_changeset db_sim env_fix (some cs_fix) []).ret =
      ((broken_count db_sim cs_fix + env_fix.num_dir_update_errors +
        run_triggers db_sim env_fix cs_fix +
        (if env_fix.write_config_ok then 0 else 1) : Nat) : Int) :=
  commit_simulate_ret db_sim env_fix cs_fix [] rfl (by decide) (by decide) rfl

/-- Self-upgrade database fixture. -/
def db_selfup : Database := { db_fix with performing_self_upgrade := true }

/-- Counterexample to C10: a commit with a NULL change array does persist the
target world and run the post-commit hooks, but when the database is
performing a self-upgrade it prints no final summary, contrary to the
claim. -/
theorem commit_empty_no_summary :
    (apk_solver_commit_changeset db_selfup env_fix none [1]).db.world = [1] ∧
    (apk_solver_commit_changeset db_selfup env_fix none [1]).post_hooks_ran = true ∧
    (apk_solver_commit_changeset db_selfup env_fix none [1]).summary = none :=
  ⟨rfl, rfl, rfl⟩

/-- C10 (amended): a commit whose change array is NULL skips the statistics
pass, the human diff, the interactive confirmation, the pre-commit hooks and
the apply loop, yet persists the target world, attempts the configuration
write and runs the post-commit hooks; unless the commit is part of a
self-upgrade it also prints the final summary from the unchanged installed
counters. -/
theorem commit_empty_changes (db : Database) (env : Env) (world : List Nat)
    (h1 : env.check_world_ok = true) (h4 : db.performing_self_upgrade = false) :
    (apk_solver_commit_changeset db env none world).stats_counted = false ∧
    (apk_solver_commit_changeset db env none world).diff_shown = false ∧
    (apk_solver_commit_changeset db env none world).prompted = false ∧
    (apk_solver_commit_changeset db env none world).pre_hooks_ran = false ∧
    (apk_solver_commit_changeset db env none world).apply_ran = false ∧
    (apk_solver_commit_changeset db env none world).db.world = world ∧
    (apk_solver_commit_changeset db env none world).config_attempted = true ∧
    (apk_solver_commit_changeset db env none world).post_hooks_ran = true ∧
    (apk_solver_commit_changeset db env none world).summary =
      some ((db.stats0.bytes : Int), (db.stats0.packages : Int)) := by
  rw [commit_none_eq db env world h1]
  refine ⟨rfl, rfl, rfl, rfl, rfl, rfl, rfl, rfl, ?_⟩
  rw [all_done_summary, h4]
  simp [Database.mut0]

/-- Witness for C10 (amended) at the concrete fixtures. -/
theorem commit_empty_changes_witness :
    (apk_solver_commit_changeset db_fix env_fix none [2]).stats_counted = false ∧
    (apk_solver_commit_changeset db_fix env_fix none [2]).diff_shown = false ∧
    (apk_solver_commit_changeset db_fix env_fix none [2]).prompted = false ∧
    (apk_solver_commit_changeset db_fix env_fix none [2]).pre_hooks_ran = false ∧
    (apk_solver_commit_changeset db_fix env_fix none [2]).apply_ran = false ∧
    (apk_solver_commit_changeset db_fix env_fix none [2]).db.world = [2] ∧
    (apk_solver_commit_changeset db_fix env_fix none [2]).config_attempted = true ∧
    (apk_solver_commit_changeset db_fix env_fix none [2]).post_hooks_ran = true ∧
    (apk_solver_commit_changeset db_fix env_fix none [2]).summary =
      some ((db_fix.stats0.bytes : Int), (db_fix.stats0.packages : Int)) :=
  commit_empty_changes db_fix env_fix [2] rfl rfl

end Apk
